import Mathlib

/-!
Shallow embedding of the "AI Receptionist" backend (src/main.py, src/schemas.py)
and proofs about its specified behaviour.

Strings are modelled with Lean `String`, but every operation on them is
defined here by structural recursion over `String.data` (the character list),
so that all definitions evaluate inside the kernel. Python's `str.lower` is
modelled by per-character ASCII lowering (`Char.toLower`); the repository's
keyword matching and canned replies are ASCII except for one non-breaking
hyphen (U+2011) inside the Wi-Fi reply, which is reproduced verbatim below.
-/

namespace Receptionist

/-- Substring test on character lists: does `needle` occur (contiguously)
anywhere in the second list? Models Python's `k in text` for strings. -/
def listContainsSub (needle : List Char) : List Char → Bool
  | [] => needle.isEmpty
  | c :: t => needle.isPrefixOf (c :: t) || listContainsSub needle t

/-- Whitespace characters removed by Python's `str.strip()` (ASCII fragment). -/
def isWsChar (c : Char) : Bool :=
  (c == ' ') || (c == '\t') || (c == '\n') || (c == '\r') || (c == '\x0b') || (c == '\x0c')

/-- Remove leading and trailing whitespace from a character list. -/
def stripList (l : List Char) : List Char :=
  ((l.dropWhile isWsChar).reverse.dropWhile isWsChar).reverse

/-- Model of Python `str.lower()` (ASCII case folding). -/
def pyLower (s : String) : String := ⟨s.data.map Char.toLower⟩

/-- Model of Python `str.strip()`. -/
def pyStrip (s : String) : String := ⟨stripList s.data⟩

/-- Model of Python `needle in hay` on strings. -/
def pyContains (hay needle : String) : Bool := listContainsSub needle.data hay.data

/-- Model of Python `any(k in text for k in ks)`. -/
def containsAny (text : String) (ks : List String) : Bool :=
  ks.any (fun k => pyContains text k)

/-- Keyword set of the check-in category (src/main.py line 166). -/
def checkinKeywords : List String := ["check-in", "check in", "arrival"]

/-- Keyword set of the check-out category (src/main.py line 168). -/
def checkoutKeywords : List String := ["check-out", "check out", "departure"]

/-- Keyword set of the Wi-Fi category (src/main.py line 170). -/
def wifiKeywords : List String := ["wifi", "wi-fi", "internet"]

/-- Keyword set of the parking category (src/main.py line 172). -/
def parkingKeywords : List String := ["parking", "car"]

/-- Keyword set of the pets category (src/main.py line 174). -/
def petKeywords : List String := ["pet", "dog", "cat"]

/-- Keyword set of the amenities category (src/main.py line 176). -/
def amenityKeywords : List String := ["pool", "gym", "fitness", "spa"]

/-- Keyword set of the rates category (src/main.py line 178). -/
def rateKeywords : List String := ["rate", "price", "cost"]

/-- Embedding of `generate_ai_reply` (src/main.py lines 164-180).
The message is lowercased and stripped, then the seven keyword categories are
tested in the source's order; the first match wins, otherwise the fallback is
returned. Note: the Wi-Fi reply string contains the non-breaking hyphen
U+2011 between "Wi" and "Fi", exactly as in the source. -/
def generate_ai_reply (message : String) : String :=
  let text := pyStrip (pyLower message)
  if containsAny text checkinKeywords then
    "Check-in is at 3:00 PM. Early check-in is subject to availability."
  else if containsAny text checkoutKeywords then
    "Check-out is at 11:00 AM. Late check-out may be available upon request."
  else if containsAny text wifiKeywords then
    "Yes, complimentary high-speed Wi‑Fi is available throughout the property."
  else if containsAny text parkingKeywords then
    "Parking is available on-site. Please check with the front desk for rates and availability."
  else if containsAny text petKeywords then
    "We are pet-friendly for select rooms. A cleaning fee may apply."
  else if containsAny text amenityKeywords then
    "Our amenities include fitness center access from 6 AM to 10 PM."
  else if containsAny text rateKeywords then
    "Standard rates start from $89 per night before taxes and fees."
  else
    "Thanks for reaching out! How can I assist with your stay, booking, or questions today?"

/-- Calendar date, the embedding of Python `datetime.date` values as used by
`BookingRequest.check_in` and `check_out`. No constraint relating the two
dates exists anywhere in the schema. -/
structure Date where
  year : Int
  month : Nat
  day : Nat
deriving DecidableEq

/-- Modelled from the spec: pydantic's `EmailStr` ("must conform to standard
email syntax") comes from a third-party validator not in this repository; it
is modelled as: exactly one at-sign, a nonempty local part, a nonempty domain
containing a dot, and no whitespace anywhere. -/
def isValidEmail (s : String) : Bool :=
  let l := s.data
  let lp := l.takeWhile (fun c => c != '@')
  match l.dropWhile (fun c => c != '@') with
  | [] => false
  | _ :: dom =>
    (!lp.isEmpty) && (!dom.isEmpty) && (!(dom.contains '@')) && (dom.contains '.')
      && (!(l.any isWsChar))

/-- Embedding of the validated `Property` record (src/schemas.py lines 11-28). -/
structure Property where
  name : String
  description : Option String := none
  address : Option String := none
  city : Option String := none
  country : Option String := none
  phone : Option String := none
  email : Option String := none
  website : Option String := none
  check_in_time : Option String := some "3:00 PM"
  check_out_time : Option String := some "11:00 AM"
  amenities : List String := ["Free Wi‑Fi", "Parking", "Breakfast available"]
  currency : String := "USD"
  timezone : Option String := none
  rooms_total : Int := 20
  rooms_available : Int := 20
  min_rate : Option ℚ := some 79
  max_rate : Option ℚ := some 249
deriving DecidableEq

/-- Input to `Property` construction: `none` means the field was not supplied
and its pydantic default applies. -/
structure PropertyIn where
  name : Option String := none
  description : Option String := none
  address : Option String := none
  city : Option String := none
  country : Option String := none
  phone : Option String := none
  email : Option String := none
  website : Option String := none
  check_in_time : Option String := none
  check_out_time : Option String := none
  amenities : Option (List String) := none
  currency : Option String := none
  timezone : Option String := none
  rooms_total : Option Int := none
  rooms_available : Option Int := none
  min_rate : Option ℚ := none
  max_rate : Option ℚ := none

/-- Email check for an optional email field: an absent field passes, a present
one must satisfy `isValidEmail`. -/
def optEmailOk : Option String → Bool
  | none => true
  | some e => isValidEmail e

/-- A supplied value of a `ge=0` integer field must be nonnegative. -/
def nonnegIntOk : Option Int → Bool
  | none => true
  | some v => decide (0 ≤ v)

/-- A supplied value of a `ge=0` numeric field must be nonnegative. -/
def nonnegRatOk : Option ℚ → Bool
  | none => true
  | some v => decide (0 ≤ v)

/-- Embedding of pydantic construction/validation of `Property`
(src/schemas.py lines 11-28): `name` is required; `email`, when supplied, must
be a valid email; the four numeric fields carry `ge=0`; every unsupplied field
receives its declared default (the amenities default list spells "Wi‑Fi" with
the non-breaking hyphen U+2011, exactly as in the source). -/
def Property.validate (inp : PropertyIn) : Except String Property :=
  match inp.name with
  | none => Except.error "InvalidInput: name: field required"
  | some nm =>
    if optEmailOk inp.email then
      if nonnegIntOk inp.rooms_total then
        if nonnegIntOk inp.rooms_available then
          if nonnegRatOk inp.min_rate then
            if nonnegRatOk inp.max_rate then
              Except.ok
                { name := nm
                  description := inp.description
                  address := inp.address
                  city := inp.city
                  country := inp.country
                  phone := inp.phone
                  email := inp.email
                  website := inp.website
                  check_in_time := some (inp.check_in_time.getD "3:00 PM")
                  check_out_time := some (inp.check_out_time.getD "11:00 AM")
                  amenities := inp.amenities.getD ["Free Wi‑Fi", "Parking", "Breakfast available"]
                  currency := inp.currency.getD "USD"
                  timezone := inp.timezone
                  rooms_total := inp.rooms_total.getD 20
                  rooms_available := inp.rooms_available.getD 20
                  min_rate := some (inp.min_rate.getD 79)
                  max_rate := some (inp.max_rate.getD 249) }
            else Except.error "InvalidInput: max_rate: ensure this value is greater than or equal to 0"
          else Except.error "InvalidInput: min_rate: ensure this value is greater than or equal to 0"
        else Except.error "InvalidInput: rooms_available: ensure this value is greater than or equal to 0"
      else Except.error "InvalidInput: rooms_total: ensure this value is greater than or equal to 0"
    else Except.error "InvalidInput: email: value is not a valid email address"

/-- Embedding of the validated `BookingRequest` record (src/schemas.py lines 54-65). -/
structure BookingRequest where
  full_name : String
  email : String
  phone : Option String := none
  check_in : Date
  check_out : Date
  adults : Int := 2
  children : Int := 0
  special_requests : Option String := none
  estimated_rate : Option ℚ := none
  currency : String := "USD"
  conversation_id : Option String := none
deriving DecidableEq

/-- Input to `BookingRequest` construction: `none` means the field was not
supplied. -/
structure BookingIn where
  full_name : Option String := none
  email : Option String := none
  phone : Option String := none
  check_in : Option Date := none
  check_out : Option Date := none
  adults : Option Int := none
  children : Option Int := none
  special_requests : Option String := none
  estimated_rate : Option ℚ := none
  currency : Option String := none
  conversation_id : Option String := none

/-- Embedding of pydantic construction/validation of `BookingRequest`
(src/schemas.py lines 54-65): `full_name`, `email`, `check_in` and `check_out`
are required and the email must be syntactically valid; no constraint relates
`check_out` to `check_in`, and the remaining fields default as declared. -/
def BookingRequest.validate (inp : BookingIn) : Except String BookingRequest :=
  match inp.full_name, inp.email, inp.check_in, inp.check_out with
  | some fn, some em, some ci, some co =>
    if isValidEmail em then
      Except.ok
        { full_name := fn
          email := em
          phone := inp.phone
          check_in := ci
          check_out := co
          adults := inp.adults.getD 2
          children := inp.children.getD 0
          special_requests := inp.special_requests
          estimated_rate := inp.estimated_rate
          currency := inp.currency.getD "USD"
          conversation_id := inp.conversation_id }
    else Except.error "InvalidInput: email: value is not a valid email address"
  | _, _, _, _ => Except.error "InvalidInput: field required"

/-- Embedding of the validated `Faq` record (src/schemas.py lines 30-33). -/
structure Faq where
  question : String
  answer : String
  tags : List String := []
deriving DecidableEq

/-- Embedding of the validated `ConversationMessage` record (src/schemas.py
lines 35-38). The pydantic `Literal` constrains `role` to "user" or
"assistant"; the handlers below only ever construct those two values. -/
structure ConversationMessage where
  role : String
  content : String
  lang : Option String := none
deriving DecidableEq

/-- Embedding of the validated `Conversation` record (src/schemas.py lines
40-44); `status` is constrained to "open"/"closed" and `source` to one of
"web", "kiosk", "sms", "whatsapp", "phone", with the defaults shown. -/
structure Conversation where
  visitor_id : String
  messages : List ConversationMessage := []
  status : String := "open"
  source : String := "web"
deriving DecidableEq

/-- Embedding of the validated `Lead` record (src/schemas.py lines 46-52). -/
structure Lead where
  name : Option String := none
  email : Option String := none
  phone : Option String := none
  message : Option String := none
  conversation_id : Option String := none
  status : String := "new"
deriving DecidableEq

/-- Embedding of the request body `ConversationIn` (src/main.py lines 88-91). -/
structure ConversationIn where
  visitor_id : String
  message : String
  lang : Option String := none
deriving DecidableEq

/-- A document handed to the store: one of the five record kinds the routes
persist. -/
inductive Doc where
  | property (p : Property)
  | faq (f : Faq)
  | conversation (c : Conversation)
  | lead (l : Lead)
  | booking (b : BookingRequest)
deriving DecidableEq

/-- Modelled from the spec: the document store's observable behaviour
(`database.py` is imported by src/main.py but absent from the sources). The
store is modelled by two outcome scripts — one consumed per `create_document`
call, one per `get_documents` call — plus the list of successfully inserted
documents, each recorded as (collection name, document, generated identifier).
An exhausted script models the store-unavailable state, in which every
operation fails with a StorageUnavailable error. -/
structure StoreState where
  createScript : List (Except String String) := []
  queryScript : List (Except String (List (String × Doc))) := []
  inserted : List (String × Doc × String) := []

/-- Modelled from the spec: `createDocument(collectionName, record)` inserts
the record into the named collection and returns the generated identifier as
text; it raises StorageUnavailable when no live handle exists and StorageError
when the insert fails, and performs no retry — each call consumes exactly one
scripted outcome. -/
def create_document (collection : String) (doc : Doc) (st : StoreState) :
    Except String String × StoreState :=
  match st.createScript with
  | [] => (Except.error "StorageUnavailable: Database not available", st)
  | Except.ok id :: rest =>
    (Except.ok id,
      { st with createScript := rest, inserted := st.inserted ++ [(collection, doc, id)] })
  | Except.error msg :: rest =>
    (Except.error msg, { st with createScript := rest })

/-- Modelled from the spec: `getDocuments(collectionName, filter, limit)`
returns at most `limit` documents, each with its identifier rendered as text;
it fails like `createDocument` when the handle is absent or the query fails,
again consuming exactly one scripted outcome per call. -/
def get_documents (collection : String) (filter : List (String × String)) (limit : Nat)
    (st : StoreState) : Except String (List (String × Doc)) × StoreState :=
  match st.queryScript with
  | [] => (Except.error "StorageUnavailable: Database not available", st)
  | Except.ok docs :: rest => (Except.ok (docs.take limit), { st with queryScript := rest })
  | Except.error msg :: rest => (Except.error msg, { st with queryScript := rest })

/-- Embedding of FastAPI's `HTTPException` as raised by the route handlers. -/
structure HTTPException where
  status_code : Nat
  detail : String
deriving DecidableEq

/-- The JSON bodies the routes return on success. -/
inductive ResponseBody where
  | rootOk (service status : String)
  | idOnly (id : String)
  | docList (docs : List (String × Doc))
  | convStarted (conversation_id reply : String)
  | replyOnly (reply : String)
deriving DecidableEq

/-- A route's outcome: a success body, or an `HTTPException`. -/
abbrev Response := Except HTTPException ResponseBody

/-- Embedding of `upsert_property` (src/main.py lines 54-61): insert a new
property document; any store error becomes a 500 whose detail is the error's
text. -/
def upsert_property (payload : Property) (st : StoreState) : Response × StoreState :=
  match create_document "property" (Doc.property payload) st with
  | (Except.ok id, st') => (Except.ok (ResponseBody.idOnly id), st')
  | (Except.error e, st') => (Except.error ⟨500, e⟩, st')

/-- Embedding of `get_property_sample` (src/main.py lines 63-69): fetch at
most one property document. -/
def get_property_sample (st : StoreState) : Response × StoreState :=
  match get_documents "property" [] 1 st with
  | (Except.ok docs, st') => (Except.ok (ResponseBody.docList docs), st')
  | (Except.error e, st') => (Except.error ⟨500, e⟩, st')

/-- Embedding of `add_faq` (src/main.py lines 72-78). -/
def add_faq (faq : Faq) (st : StoreState) : Response × StoreState :=
  match create_document "faq" (Doc.faq faq) st with
  | (Except.ok id, st') => (Except.ok (ResponseBody.idOnly id), st')
  | (Except.error e, st') => (Except.error ⟨500, e⟩, st')

/-- Embedding of `list_faqs` (src/main.py lines 80-85): fetch at most 50 FAQ
documents. -/
def list_faqs (st : StoreState) : Response × StoreState :=
  match get_documents "faq" [] 50 st with
  | (Except.ok docs, st') => (Except.ok (ResponseBody.docList docs), st')
  | (Except.error e, st') => (Except.error ⟨500, e⟩, st')

/-- Embedding of `start_conversation` (src/main.py lines 93-110): persist a
conversation holding the single user message, generate the heuristic reply,
persist a second conversation holding the single assistant message, and return
the first document's identifier with the reply. -/
def start_conversation (payload : ConversationIn) (st : StoreState) : Response × StoreState :=
  match create_document "conversation"
      (Doc.conversation
        { visitor_id := payload.visitor_id
          messages := [{ role := "user", content := payload.message, lang := payload.lang }] })
      st with
  | (Except.error e, st') => (Except.error ⟨500, e⟩, st')
  | (Except.ok conv_id, st') =>
    let ai_reply := generate_ai_reply payload.message
    match create_document "conversation"
        (Doc.conversation
          { visitor_id := payload.visitor_id
            messages := [{ role := "assistant", content := ai_reply, lang := payload.lang }]
            status := "open" })
        st' with
    | (Except.error e, st'') => (Except.error ⟨500, e⟩, st'')
    | (Except.ok _, st'') => (Except.ok (ResponseBody.convStarted conv_id ai_reply), st'')

/-- Embedding of `add_message` (src/main.py lines 112-129): the
`conversation_id` path parameter is accepted but never used; the handler
persists the user message and the generated assistant reply as two brand-new
conversation documents and returns only the reply. -/
def add_message (conversation_id : String) (payload : ConversationIn) (st : StoreState) :
    Response × StoreState :=
  match create_document "conversation"
      (Doc.conversation
        { visitor_id := payload.visitor_id
          messages := [{ role := "user", content := payload.message, lang := payload.lang }]
          status := "open" })
      st with
  | (Except.error e, st') => (Except.error ⟨500, e⟩, st')
  | (Except.ok _, st') =>
    let ai_reply := generate_ai_reply payload.message
    match create_document "conversation"
        (Doc.conversation
          { visitor_id := payload.visitor_id
            messages := [{ role := "assistant", content := ai_reply, lang := payload.lang }]
            status := "open" })
        st' with
    | (Except.error e, st'') => (Except.error ⟨500, e⟩, st'')
    | (Except.ok _, st'') => (Except.ok (ResponseBody.replyOnly ai_reply), st'')

/-- Embedding of `create_lead` (src/main.py lines 132-138). -/
def create_lead (lead : Lead) (st : StoreState) : Response × StoreState :=
  match create_document "lead" (Doc.lead lead) st with
  | (Except.ok id, st') => (Except.ok (ResponseBody.idOnly id), st')
  | (Except.error e, st') => (Except.error ⟨500, e⟩, st')

/-- Embedding of `list_leads` (src/main.py lines 140-145). -/
def list_leads (st : StoreState) : Response × StoreState :=
  match get_documents "lead" [] 50 st with
  | (Except.ok docs, st') => (Except.ok (ResponseBody.docList docs), st')
  | (Except.error e, st') => (Except.error ⟨500, e⟩, st')

/-- Embedding of `request_booking` (src/main.py lines 148-154). -/
def request_booking (br : BookingRequest) (st : StoreState) : Response × StoreState :=
  match create_document "bookingrequest" (Doc.booking br) st with
  | (Except.ok id, st') => (Except.ok (ResponseBody.idOnly id), st')
  | (Except.error e, st') => (Except.error ⟨500, e⟩, st')

/-- Embedding of `list_bookings` (src/main.py lines 156-161). -/
def list_bookings (st : StoreState) : Response × StoreState :=
  match get_documents "bookingrequest" [] 50 st with
  | (Except.ok docs, st') => (Except.ok (ResponseBody.docList docs), st')
  | (Except.error e, st') => (Except.error ⟨500, e⟩, st')

/-- The routes of the HTTP API layer with their (already request-validated)
payloads. The diagnostic route GET /test is not modelled: it touches only the
store's health introspection, not the record collections. -/
inductive Request where
  | root
  | postProperty (payload : Property)
  | getProperty
  | postFaq (payload : Faq)
  | getFaqs
  | convStart (payload : ConversationIn)
  | convMessage (conversation_id : String) (payload : ConversationIn)
  | postLead (payload : Lead)
  | getLeads
  | postBooking (payload : BookingRequest)
  | getBookings

/-- Dispatch of a request to its route handler (the FastAPI routing table of
src/main.py). -/
def handle : Request → StoreState → Response × StoreState
  | Request.root, st => (Except.ok (ResponseBody.rootOk "AI Receptionist API" "ok"), st)
  | Request.postProperty p, st => upsert_property p st
  | Request.getProperty, st => get_property_sample st
  | Request.postFaq f, st => add_faq f st
  | Request.getFaqs, st => list_faqs st
  | Request.convStart p, st => start_conversation p st
  | Request.convMessage cid p, st => add_message cid p st
  | Request.postLead l, st => create_lead l st
  | Request.getLeads, st => list_leads st
  | Request.postBooking b, st => request_booking b st
  | Request.getBookings, st => list_bookings st

/-- C2 counterexample: the claim demands the Wi-Fi reply with an ASCII hyphen
in "Wi-Fi" "character for character", but on the input "wifi" — which contains
a Wi-Fi keyword and no check-in or check-out keyword — `generate_ai_reply`
returns the string with the non-breaking hyphen U+2011, so it is not equal to
the claimed ASCII-hyphen string. -/
theorem c2_counterexample :
    containsAny (pyStrip (pyLower "wifi")) wifiKeywords = true ∧
    containsAny (pyStrip (pyLower "wifi")) checkinKeywords = false ∧
    containsAny (pyStrip (pyLower "wifi")) checkoutKeywords = false ∧
    generate_ai_reply "wifi" ≠
      "Yes, complimentary high-speed Wi-Fi is available throughout the property." := by
  refine ⟨by decide, by decide, by decide, by decide⟩

/-- C2 (amended): for every message whose lowercased, stripped form contains a
Wi-Fi keyword and none of the check-in or check-out keywords,
`generate_ai_reply` returns exactly the Wi-Fi reply — which, as in the source,
spells "Wi‑Fi" with the non-breaking hyphen U+2011, not an ASCII hyphen. -/
theorem c2_wifi_reply (msg : String)
    (hw : containsAny (pyStrip (pyLower msg)) wifiKeywords = true)
    (hin : containsAny (pyStrip (pyLower msg)) checkinKeywords = false)
    (hout : containsAny (pyStrip (pyLower msg)) checkoutKeywords = false) :
    generate_ai_reply msg =
      "Yes, complimentary high-speed Wi‑Fi is available throughout the property." := by
  simp [generate_ai_reply, hw, hin, hout]

/-- Witness for C2 (amended) at the concrete message "Is there WiFi in the rooms?". -/
theorem c2_wifi_reply_witness :
    containsAny (pyStrip (pyLower "Is there WiFi in the rooms?")) wifiKeywords = true ∧
    containsAny (pyStrip (pyLower "Is there WiFi in the rooms?")) checkinKeywords = false ∧
    containsAny (pyStrip (pyLower "Is there WiFi in the rooms?")) checkoutKeywords = false ∧
    generate_ai_reply "Is there WiFi in the rooms?" =
      "Yes, complimentary high-speed Wi‑Fi is available throughout the property." :=
  ⟨by decide, by decide, by decide,
    c2_wifi_reply "Is there WiFi in the rooms?" (by decide) (by decide) (by decide)⟩

/-- C3: any message whose lowercased, stripped form contains a check-in keyword
and a Wi-Fi keyword gets the check-in reply — the check-in category is tested
first, so priority 1 wins over priority 3. -/
theorem c3_checkin_priority (msg : String)
    (hin : containsAny (pyStrip (pyLower msg)) checkinKeywords = true)
    (hw : containsAny (pyStrip (pyLower msg)) wifiKeywords = true) :
    generate_ai_reply msg =
      "Check-in is at 3:00 PM. Early check-in is subject to availability." := by
  clear hw
  simp [generate_ai_reply, hin]

/-- Witness for C3 at the spec's own example message. -/
theorem c3_checkin_priority_witness :
    containsAny (pyStrip (pyLower "What time is check-in and is there wifi?")) checkinKeywords
      = true ∧
    containsAny (pyStrip (pyLower "What time is check-in and is there wifi?")) wifiKeywords
      = true ∧
    generate_ai_reply "What time is check-in and is there wifi?" =
      "Check-in is at 3:00 PM. Early check-in is subject to availability." :=
  ⟨by decide, by decide,
    c3_checkin_priority "What time is check-in and is there wifi?" (by decide) (by decide)⟩

/-- C9: a message whose lowercased, stripped form contains no keyword of any of
the seven categories gets exactly the generic fallback reply. -/
theorem c9_fallback (msg : String)
    (h1 : containsAny (pyStrip (pyLower msg)) checkinKeywords = false)
    (h2 : containsAny (pyStrip (pyLower msg)) checkoutKeywords = false)
    (h3 : containsAny (pyStrip (pyLower msg)) wifiKeywords = false)
    (h4 : containsAny (pyStrip (pyLower msg)) parkingKeywords = false)
    (h5 : containsAny (pyStrip (pyLower msg)) petKeywords = false)
    (h6 : containsAny (pyStrip (pyLower msg)) amenityKeywords = false)
    (h7 : containsAny (pyStrip (pyLower msg)) rateKeywords = false) :
    generate_ai_reply msg =
      "Thanks for reaching out! How can I assist with your stay, booking, or questions today?" := by
  simp [generate_ai_reply, h1, h2, h3, h4, h5, h6, h7]

/-- Witness for C9 at the spec's own example message "Can I get extra towels?". -/
theorem c9_fallback_witness :
    containsAny (pyStrip (pyLower "Can I get extra towels?")) checkinKeywords = false ∧
    containsAny (pyStrip (pyLower "Can I get extra towels?")) checkoutKeywords = false ∧
    containsAny (pyStrip (pyLower "Can I get extra towels?")) wifiKeywords = false ∧
    containsAny (pyStrip (pyLower "Can I get extra towels?")) parkingKeywords = false ∧
    containsAny (pyStrip (pyLower "Can I get extra towels?")) petKeywords = false ∧
    containsAny (pyStrip (pyLower "Can I get extra towels?")) amenityKeywords = false ∧
    containsAny (pyStrip (pyLower "Can I get extra towels?")) rateKeywords = false ∧
    generate_ai_reply "Can I get extra towels?" =
      "Thanks for reaching out! How can I assist with your stay, booking, or questions today?" :=
  ⟨by decide, by decide, by decide, by decide, by decide, by decide, by decide,
    c9_fallback "Can I get extra towels?" (by decide) (by decide) (by decide) (by decide)
      (by decide) (by decide) (by decide)⟩

/-- C6: constructing a `Property` with no name fails with an InvalidInput
error, and constructing one supplying only a name succeeds and yields exactly
the declared defaults: check-in "3:00 PM", check-out "11:00 AM", 20 rooms
total and available, rates 79 and 249, and the three default amenities. -/
theorem c6_property_defaults :
    (∃ e, Property.validate {} = Except.error e) ∧
    ∀ nm : String,
      Property.validate { name := some nm } =
        Except.ok
          { name := nm
            description := none
            address := none
            city := none
            country := none
            phone := none
            email := none
            website := none
            check_in_time := some "3:00 PM"
            check_out_time := some "11:00 AM"
            amenities := ["Free Wi‑Fi", "Parking", "Breakfast available"]
            currency := "USD"
            timezone := none
            rooms_total := 20
            rooms_available := 20
            min_rate := some 79
            max_rate := some 249 } :=
  ⟨⟨"InvalidInput: name: field required", rfl⟩, fun _ => rfl⟩

/-- C7: for every pair of dates `d1`, `d2` — including `d2` equal to or
earlier than `d1` — a `BookingRequest` with `check_in = d1`, `check_out = d2`,
a full name and a syntactically valid email validates successfully: nothing
constrains `check_out` relative to `check_in`. -/
theorem c7_booking_dates_unconstrained (d1 d2 : Date) (fn em : String)
    (h : isValidEmail em = true) :
    BookingRequest.validate
        { full_name := some fn, email := some em,
          check_in := some d1, check_out := some d2 } =
      Except.ok
        { full_name := fn
          email := em
          phone := none
          check_in := d1
          check_out := d2
          adults := 2
          children := 0
          special_requests := none
          estimated_rate := none
          currency := "USD"
          conversation_id := none } := by
  simp [BookingRequest.validate, h]

/-- Witness for C7 with `check_out` nine days before `check_in`. -/
theorem c7_booking_dates_unconstrained_witness :
    isValidEmail "guest@example.com" = true ∧
    BookingRequest.validate
        { full_name := some "Ada Guest", email := some "guest@example.com",
          check_in := some ⟨2025, 3, 10⟩, check_out := some ⟨2025, 3, 1⟩ } =
      Except.ok
        { full_name := "Ada Guest"
          email := "guest@example.com"
          phone := none
          check_in := ⟨2025, 3, 10⟩
          check_out := ⟨2025, 3, 1⟩
          adults := 2
          children := 0
          special_requests := none
          estimated_rate := none
          currency := "USD"
          conversation_id := none } :=
  ⟨by decide,
    c7_booking_dates_unconstrained ⟨2025, 3, 10⟩ ⟨2025, 3, 1⟩ "Ada Guest" "guest@example.com"
      (by decide)⟩

/-- Anything in the inserted list after a `create_document` call was either
there before, or is the inserted (collection, document, identifier) triple. -/
lemma mem_inserted_create_document (coll' : String) (d' : Doc) (st : StoreState)
    (x : String × Doc × String)
    (hx : x ∈ (create_document coll' d' st).2.inserted) :
    x ∈ st.inserted ∨ ∃ id, x = (coll', d', id) := by
  rcases hsc : st.createScript with _ | ⟨a | a, tail⟩
  · simp only [create_document, hsc] at hx
    exact Or.inl hx
  · simp only [create_document, hsc] at hx
    exact Or.inl hx
  · simp only [create_document, hsc] at hx
    rcases List.mem_append.1 hx with hx | hx
    · exact Or.inl hx
    · exact Or.inr ⟨a, List.mem_singleton.1 hx⟩

/-- `get_documents` never touches the inserted list. -/
lemma inserted_get_documents (coll' : String) (fl : List (String × String)) (lim : Nat)
    (st : StoreState) : (get_documents coll' fl lim st).2.inserted = st.inserted := by
  rcases hq : st.queryScript with _ | ⟨a | a, tail⟩ <;> simp [get_documents, hq]

/-- A non-conversation document vacuously satisfies the conversation-document
invariant. -/
lemma nonconv_invariant (d : Doc) (hd : ∀ c : Conversation, d ≠ Doc.conversation c) :
    ∀ c : Conversation, d = Doc.conversation c →
      c.messages.length = 1 ∧ c.status = "open" :=
  fun c h => absurd h (hd c)

/-- A conversation document built from a single message with status "open"
satisfies the conversation-document invariant. -/
lemma conv_invariant_literal (v : String) (m : ConversationMessage) :
    ∀ c : Conversation,
      Doc.conversation { visitor_id := v, messages := [m], status := "open" } =
          Doc.conversation c →
        c.messages.length = 1 ∧ c.status = "open" := by
  rintro c h
  injection h with h'
  subst h'
  exact ⟨rfl, rfl⟩

/-- C1: when both store inserts succeed, POST /api/conversations/start
persists first the single-user-message conversation and then the
single-assistant-message conversation (content = the generated reply) and
returns exactly the first document's identifier with the reply; the second
identifier appears nowhere in the response. -/
theorem c1_start_conversation_two_docs (p : ConversationIn) (st : StoreState)
    (id1 id2 : String) (rest : List (Except String String))
    (h : st.createScript = Except.ok id1 :: Except.ok id2 :: rest) :
    handle (Request.convStart p) st =
      (Except.ok (ResponseBody.convStarted id1 (generate_ai_reply p.message)),
       { createScript := rest
         queryScript := st.queryScript
         inserted := st.inserted ++
           [("conversation",
             Doc.conversation
               { visitor_id := p.visitor_id
                 messages := [{ role := "user", content := p.message, lang := p.lang }] },
             id1),
            ("conversation",
             Doc.conversation
               { visitor_id := p.visitor_id
                 messages :=
                   [{ role := "assistant", content := generate_ai_reply p.message,
                      lang := p.lang }]
                 status := "open" },
             id2)] }) := by
  simp [handle, start_conversation, create_document, h]

/-- Witness for C1 at the spec's own example request. -/
theorem c1_start_conversation_two_docs_witness :
    handle (Request.convStart { visitor_id := "v1", message := "Do you allow pets?" })
        { createScript := [Except.ok "cid1", Except.ok "cid2"] } =
      (Except.ok (ResponseBody.convStarted "cid1"
          "We are pet-friendly for select rooms. A cleaning fee may apply."),
       { inserted :=
           [("conversation",
             Doc.conversation
               { visitor_id := "v1"
                 messages := [{ role := "user", content := "Do you allow pets?" }] },
             "cid1"),
            ("conversation",
             Doc.conversation
               { visitor_id := "v1"
                 messages :=
                   [{ role := "assistant",
                      content := "We are pet-friendly for select rooms. A cleaning fee may apply." }]
                 status := "open" },
             "cid2")] }) := by
  rw [c1_start_conversation_two_docs { visitor_id := "v1", message := "Do you allow pets?" }
    { createScript := [Except.ok "cid1", Except.ok "cid2"] } "cid1" "cid2" [] rfl]
  rfl

/-- C4: every conversation document any route handler adds to the store holds
exactly one message and has status "open"; no code path persists a closed or
empty or multi-message conversation. -/
theorem c4_conversation_docs_invariant (r : Request) (st : StoreState)
    (coll : String) (d : Doc) (id : String)
    (hmem : (coll, d, id) ∈ (handle r st).2.inserted) :
    (coll, d, id) ∈ st.inserted ∨
      ∀ c : Conversation, d = Doc.conversation c →
        c.messages.length = 1 ∧ c.status = "open" := by
  cases r with
  | root => exact Or.inl hmem
  | getProperty =>
    rcases hq : get_documents "property" [] 1 st with ⟨res, st'⟩
    have : st'.inserted = st.inserted := by
      have := inserted_get_documents "property" [] 1 st
      rw [hq] at this; exact this
    simp only [handle, get_property_sample, hq] at hmem
    rcases res with docs | e <;> simp only at hmem <;> exact Or.inl (this ▸ hmem)
  | getFaqs =>
    rcases hq : get_documents "faq" [] 50 st with ⟨res, st'⟩
    have : st'.inserted = st.inserted := by
      have := inserted_get_documents "faq" [] 50 st
      rw [hq] at this; exact this
    simp only [handle, list_faqs, hq] at hmem
    rcases res with docs | e <;> simp only at hmem <;> exact Or.inl (this ▸ hmem)
  | getLeads =>
    rcases hq : get_documents "lead" [] 50 st with ⟨res, st'⟩
    have : st'.inserted = st.inserted := by
      have := inserted_get_documents "lead" [] 50 st
      rw [hq] at this; exact this
    simp only [handle, list_leads, hq] at hmem
    rcases res with docs | e <;> simp only at hmem <;> exact Or.inl (this ▸ hmem)
  | getBookings =>
    rcases hq : get_documents "bookingrequest" [] 50 st with ⟨res, st'⟩
    have : st'.inserted = st.inserted := by
      have := inserted_get_documents "bookingrequest" [] 50 st
      rw [hq] at this; exact this
    simp only [handle, list_bookings, hq] at hmem
    rcases res with docs | e <;> simp only at hmem <;> exact Or.inl (this ▸ hmem)
  | postProperty p =>
    rcases hc : create_document "property" (Doc.property p) st with ⟨res, st'⟩
    have hm' : (coll, d, id) ∈ st'.inserted := by
      simp only [handle, upsert_property, hc] at hmem
      rcases res with i | e <;> simpa using hmem
    have := mem_inserted_create_document "property" (Doc.property p) st (coll, d, id)
      (by rw [hc]; exact hm')
    rcases this with h | ⟨i, h⟩
    · exact Or.inl h
    · refine Or.inr (nonconv_invariant d fun c hc' => ?_)
      rw [hc'] at h
      simp at h
  | postFaq f =>
    rcases hc : create_document "faq" (Doc.faq f) st with ⟨res, st'⟩
    have hm' : (coll, d, id) ∈ st'.inserted := by
      simp only [handle, add_faq, hc] at hmem
      rcases res with i | e <;> simpa using hmem
    have := mem_inserted_create_document "faq" (Doc.faq f) st (coll, d, id)
      (by rw [hc]; exact hm')
    rcases this with h | ⟨i, h⟩
    · exact Or.inl h
    · refine Or.inr (nonconv_invariant d fun c hc' => ?_)
      rw [hc'] at h
      simp at h
  | postLead l =>
    rcases hc : create_document "lead" (Doc.lead l) st with ⟨res, st'⟩
    have hm' : (coll, d, id) ∈ st'.inserted := by
      simp only [handle, create_lead, hc] at hmem
      rcases res with i | e <;> simpa using hmem
    have := mem_inserted_create_document "lead" (Doc.lead l) st (coll, d, id)
      (by rw [hc]; exact hm')
    rcases this with h | ⟨i, h⟩
    · exact Or.inl h
    · refine Or.inr (nonconv_invariant d fun c hc' => ?_)
      rw [hc'] at h
      simp at h
  | postBooking b =>
    rcases hc : create_document "bookingrequest" (Doc.booking b) st with ⟨res, st'⟩
    have hm' : (coll, d, id) ∈ st'.inserted := by
      simp only [handle, request_booking, hc] at hmem
      rcases res with i | e <;> simpa using hmem
    have := mem_inserted_create_document "bookingrequest" (Doc.booking b) st (coll, d, id)
      (by rw [hc]; exact hm')
    rcases this with h | ⟨i, h⟩
    · exact Or.inl h
    · refine Or.inr (nonconv_invariant d fun c hc' => ?_)
      rw [hc'] at h
      simp at h
  | convStart p =>
    rcases hsc : st.createScript with _ | ⟨a | a, tail⟩
    · simp only [handle, start_conversation, create_document, hsc] at hmem
      exact Or.inl hmem
    · simp only [handle, start_conversation, create_document, hsc] at hmem
      exact Or.inl hmem
    · rcases tail with _ | ⟨b | b, rest⟩
      · simp only [handle, start_conversation, create_document, hsc] at hmem
        rcases List.mem_append.1 hmem with h | h
        · exact Or.inl h
        · have h' := List.mem_singleton.1 h
          simp only [Prod.mk.injEq] at h'
          exact Or.inr fun c hEq => conv_invariant_literal _ _ c (h'.2.1 ▸ hEq)
      · simp only [handle, start_conversation, create_document, hsc] at hmem
        rcases List.mem_append.1 hmem with h | h
        · exact Or.inl h
        · have h' := List.mem_singleton.1 h
          simp only [Prod.mk.injEq] at h'
          exact Or.inr fun c hEq => conv_invariant_literal _ _ c (h'.2.1 ▸ hEq)
      · simp only [handle, start_conversation, create_document, hsc] at hmem
        rcases List.mem_append.1 hmem with h | h
        · rcases List.mem_append.1 h with h2 | h2
          · exact Or.inl h2
          · have h' := List.mem_singleton.1 h2
            simp only [Prod.mk.injEq] at h'
            exact Or.inr fun c hEq => conv_invariant_literal _ _ c (h'.2.1 ▸ hEq)
        · have h' := List.mem_singleton.1 h
          simp only [Prod.mk.injEq] at h'
          exact Or.inr fun c hEq => conv_invariant_literal _ _ c (h'.2.1 ▸ hEq)
  | convMessage cid p =>
    rcases hsc : st.createScript with _ | ⟨a | a, tail⟩
    · simp only [handle, add_message, create_document, hsc] at hmem
      exact Or.inl hmem
    · simp only [handle, add_message, create_document, hsc] at hmem
      exact Or.inl hmem
    · rcases tail with _ | ⟨b | b, rest⟩
      · simp only [handle, add_message, create_document, hsc] at hmem
        rcases List.mem_append.1 hmem with h | h
        · exact Or.inl h
        · have h' := List.mem_singleton.1 h
          simp only [Prod.mk.injEq] at h'
          exact Or.inr fun c hEq => conv_invariant_literal _ _ c (h'.2.1 ▸ hEq)
      · simp only [handle, add_message, create_document, hsc] at hmem
        rcases List.mem_append.1 hmem with h | h
        · exact Or.inl h
        · have h' := List.mem_singleton.1 h
          simp only [Prod.mk.injEq] at h'
          exact Or.inr fun c hEq => conv_invariant_literal _ _ c (h'.2.1 ▸ hEq)
      · simp only [handle, add_message, create_document, hsc] at hmem
        rcases List.mem_append.1 hmem with h | h
        · rcases List.mem_append.1 h with h2 | h2
          · exact Or.inl h2
          · have h' := List.mem_singleton.1 h2
            simp only [Prod.mk.injEq] at h'
            exact Or.inr fun c hEq => conv_invariant_literal _ _ c (h'.2.1 ▸ hEq)
        · have h' := List.mem_singleton.1 h
          simp only [Prod.mk.injEq] at h'
          exact Or.inr fun c hEq => conv_invariant_literal _ _ c (h'.2.1 ▸ hEq)

/-- Witness for C4: the user-message document created by a concrete
conversation-start request is new and satisfies the invariant. -/
theorem c4_conversation_docs_invariant_witness :
    (("conversation",
      Doc.conversation
        { visitor_id := "v1", messages := [{ role := "user", content := "hi" }] },
      "cid1") ∈
        (handle (Request.convStart { visitor_id := "v1", message := "hi" })
          { createScript := [Except.ok "cid1", Except.ok "cid2"] }).2.inserted) ∧
    ((("conversation",
       Doc.conversation
         { visitor_id := "v1", messages := [{ role := "user", content := "hi" }] },
       "cid1") ∈ (StoreState.inserted { createScript := [Except.ok "cid1", Except.ok "cid2"] })) ∨
      ∀ c : Conversation,
        Doc.conversation
            { visitor_id := "v1", messages := [{ role := "user", content := "hi" }] } =
          Doc.conversation c →
        c.messages.length = 1 ∧ c.status = "open") :=
  ⟨by decide,
    c4_conversation_docs_invariant
      (Request.convStart { visitor_id := "v1", message := "hi" })
      { createScript := [Except.ok "cid1", Except.ok "cid2"] }
      "conversation"
      (Doc.conversation
        { visitor_id := "v1", messages := [{ role := "user", content := "hi" }] })
      "cid1" (by decide)⟩

/-- C5: the observable behaviour of POST /api/conversations/{id}/message —
response and resulting store state alike — is identical for any two values of
the conversation_id path parameter: the handler never reads it. -/
theorem c5_conversation_id_ignored (cid1 cid2 : String) (p : ConversationIn)
    (st : StoreState) :
    handle (Request.convMessage cid1 p) st = handle (Request.convMessage cid2 p) st := rfl

/-- C8: on every data-mutating or data-reading route, a failing store
operation is caught at the route boundary and turned into a 500 response whose
detail is the error's text; exactly one scripted outcome is consumed per
attempted operation (no retry), and on the conversation routes a failure of
the second insert still yields the 500 while the first document stays
inserted. -/
theorem c8_storage_error_is_500 (st : StoreState) (e : String)
    (prop : Property) (f : Faq) (p : ConversationIn) (cid : String)
    (l : Lead) (b : BookingRequest) :
    (∀ rest, st.createScript = Except.error e :: rest →
      handle (Request.postProperty prop) st =
        (Except.error ⟨500, e⟩, { st with createScript := rest }) ∧
      handle (Request.postFaq f) st =
        (Except.error ⟨500, e⟩, { st with createScript := rest }) ∧
      handle (Request.postLead l) st =
        (Except.error ⟨500, e⟩, { st with createScript := rest }) ∧
      handle (Request.postBooking b) st =
        (Except.error ⟨500, e⟩, { st with createScript := rest }) ∧
      handle (Request.convStart p) st =
        (Except.error ⟨500, e⟩, { st with createScript := rest }) ∧
      handle (Request.convMessage cid p) st =
        (Except.error ⟨500, e⟩, { st with createScript := rest })) ∧
    (∀ restQ, st.queryScript = Except.error e :: restQ →
      handle Request.getProperty st =
        (Except.error ⟨500, e⟩, { st with queryScript := restQ }) ∧
      handle Request.getFaqs st =
        (Except.error ⟨500, e⟩, { st with queryScript := restQ }) ∧
      handle Request.getLeads st =
        (Except.error ⟨500, e⟩, { st with queryScript := restQ }) ∧
      handle Request.getBookings st =
        (Except.error ⟨500, e⟩, { st with queryScript := restQ })) ∧
    (∀ id1 rest, st.createScript = Except.ok id1 :: Except.error e :: rest →
      handle (Request.convStart p) st =
        (Except.error ⟨500, e⟩,
         { st with
             createScript := rest
             inserted := st.inserted ++
               [("conversation",
                 Doc.conversation
                   { visitor_id := p.visitor_id
                     messages := [{ role := "user", content := p.message, lang := p.lang }] },
                 id1)] }) ∧
      handle (Request.convMessage cid p) st =
        (Except.error ⟨500, e⟩,
         { st with
             createScript := rest
             inserted := st.inserted ++
               [("conversation",
                 Doc.conversation
                   { visitor_id := p.visitor_id
                     messages := [{ role := "user", content := p.message, lang := p.lang }]
                     status := "open" },
                 id1)] })) := by
  refine ⟨fun rest h => ?_, fun restQ h => ?_, fun id1 rest h => ?_⟩
  · refine ⟨?_, ?_, ?_, ?_, ?_, ?_⟩ <;>
      simp [handle, upsert_property, add_faq, create_lead, request_booking,
        start_conversation, add_message, create_document, h]
  · refine ⟨?_, ?_, ?_, ?_⟩ <;>
      simp [handle, get_property_sample, list_faqs, list_leads, list_bookings,
        get_documents, h]
  · refine ⟨?_, ?_⟩ <;>
      simp [handle, start_conversation, add_message, create_document, h]

/-- Witness for C8: a failing first insert on POST /api/faqs, a failing query
on GET /api/faqs, and a failing second insert on the conversation-start route,
each at concrete inputs. -/
theorem c8_storage_error_is_500_witness :
    handle (Request.postFaq { question := "q", answer := "a" })
        { createScript := [Except.error "boom"] } =
      (Except.error ⟨500, "boom"⟩, {}) ∧
    handle Request.getFaqs { queryScript := [Except.error "boom"] } =
      (Except.error ⟨500, "boom"⟩, {}) ∧
    handle (Request.convStart { visitor_id := "v", message := "hi" })
        { createScript := [Except.ok "cid1", Except.error "boom"] } =
      (Except.error ⟨500, "boom"⟩,
       { inserted :=
           [("conversation",
             Doc.conversation
               { visitor_id := "v", messages := [{ role := "user", content := "hi" }] },
             "cid1")] }) :=
  ⟨((c8_storage_error_is_500 { createScript := [Except.error "boom"] } "boom"
      { name := "n" } { question := "q", answer := "a" }
      { visitor_id := "v", message := "hi" } "cid" {}
      { full_name := "g", email := "g@x.io",
        check_in := ⟨2025, 1, 1⟩, check_out := ⟨2025, 1, 2⟩ }).1 [] rfl).2.1,
   ((c8_storage_error_is_500 { queryScript := [Except.error "boom"] } "boom"
      { name := "n" } { question := "q", answer := "a" }
      { visitor_id := "v", message := "hi" } "cid" {}
      { full_name := "g", email := "g@x.io",
        check_in := ⟨2025, 1, 1⟩, check_out := ⟨2025, 1, 2⟩ }).2.1 [] rfl).2.1,
   ((c8_storage_error_is_500 { createScript := [Except.ok "cid1", Except.error "boom"] } "boom"
      { name := "n" } { question := "q", answer := "a" }
      { visitor_id := "v", message := "hi" } "cid" {}
      { full_name := "g", email := "g@x.io",
        check_in := ⟨2025, 1, 1⟩, check_out := ⟨2025, 1, 2⟩ }).2.2 "cid1" [] rfl).1⟩

/-- C10: on both conversation routes, when both inserts succeed the persisted
assistant-role conversation document carries the request's `lang` value,
exactly as the user-role document does. -/
theorem c10_assistant_doc_lang (p : ConversationIn) (cid : String) (st : StoreState)
    (id1 id2 : String) (rest : List (Except String String))
    (h : st.createScript = Except.ok id1 :: Except.ok id2 :: rest) :
    (handle (Request.convStart p) st).2.inserted =
      st.inserted ++
        [("conversation",
          Doc.conversation
            { visitor_id := p.visitor_id
              messages := [{ role := "user", content := p.message, lang := p.lang }] },
          id1),
         ("conversation",
          Doc.conversation
            { visitor_id := p.visitor_id
              messages :=
                [{ role := "assistant", content := generate_ai_reply p.message,
                   lang := p.lang }]
              status := "open" },
          id2)] ∧
    (handle (Request.convMessage cid p) st).2.inserted =
      st.inserted ++
        [("conversation",
          Doc.conversation
            { visitor_id := p.visitor_id
              messages := [{ role := "user", content := p.message, lang := p.lang }]
              status := "open" },
          id1),
         ("conversation",
          Doc.conversation
            { visitor_id := p.visitor_id
              messages :=
                [{ role := "assistant", content := generate_ai_reply p.message,
                   lang := p.lang }]
              status := "open" },
          id2)] := by
  constructor <;> simp [handle, start_conversation, add_message, create_document, h]

/-- Witness for C10 with a concrete request carrying `lang = some "fr"`. -/
theorem c10_assistant_doc_lang_witness :
    (handle (Request.convStart { visitor_id := "v", message := "parking?", lang := some "fr" })
        { createScript := [Except.ok "cid1", Except.ok "cid2"] }).2.inserted =
      [("conversation",
        Doc.conversation
          { visitor_id := "v"
            messages := [{ role := "user", content := "parking?", lang := some "fr" }] },
        "cid1"),
       ("conversation",
        Doc.conversation
          { visitor_id := "v"
            messages :=
              [{ role := "assistant",
                 content := "Parking is available on-site. Please check with the front desk for rates and availability.",
                 lang := some "fr" }]
            status := "open" },
        "cid2")] ∧
    (handle
        (Request.convMessage "ignored"
          { visitor_id := "v", message := "parking?", lang := some "fr" })
        { createScript := [Except.ok "cid1", Except.ok "cid2"] }).2.inserted =
      [("conversation",
        Doc.conversation
          { visitor_id := "v"
            messages := [{ role := "user", content := "parking?", lang := some "fr" }]
            status := "open" },
        "cid1"),
       ("conversation",
        Doc.conversation
          { visitor_id := "v"
            messages :=
              [{ role := "assistant",
                 content := "Parking is available on-site. Please check with the front desk for rates and availability.",
                 lang := some "fr" }]
            status := "open" },
        "cid2")] := by
  have h := c10_assistant_doc_lang
    { visitor_id := "v", message := "parking?", lang := some "fr" } "ignored"
    { createScript := [Except.ok "cid1", Except.ok "cid2"] } "cid1" "cid2" [] rfl
  exact ⟨h.1.trans (by decide), h.2.trans (by decide)⟩

end Receptionist
